import Mathlib

/-!
Verification of the reference-resolution logic of `py_docs_bot.py`
(Py-Docs-Bot): a shallow embedding of the three documentation resolvers
(`_library_reference_docs`, `_language_reference_docs`,
`_python_enhancement_proposals`) and of the per-comment body of
`monitor_and_reply_to_comments`, together with theorems about them.

External effects are parameters of the embedding:
* `probe : String → Bool` models `bool(requests.get(url))` — the truthiness
  of the HTTP response object for an existence probe;
* `tsr : String → String → Nat` models `fuzz.token_set_ratio` from the
  third-party fuzzywuzzy library (an opaque similarity score on 0–100).

The global `DATASTORE` (loaded once from `datastore.json`) is passed
explicitly as a `Datastore` value.
-/

/-! ### Python string primitives, modelled over `List Char` (ASCII) -/

/-- Python whitespace characters (`str.isspace`, `\s` in a pattern),
restricted to ASCII. -/
def isPyWs (c : Char) : Bool :=
  c = ' ' || c = '\t' || c = '\n' || c = '\x0b' || c = '\x0c' || c = '\r'

/-- `str.lower()` (ASCII). -/
def pyLower (s : String) : String := ⟨s.data.map Char.toLower⟩

/-- `str.upper()` (ASCII). -/
def pyUpper (s : String) : String := ⟨s.data.map Char.toUpper⟩

/-- Worker for `pyTitle`: the flag records whether the previous character
was a letter (Python capitalises the first letter of each maximal run of
letters and lowercases the rest). -/
def titleMap : Bool → List Char → List Char
  | _, [] => []
  | prevAlpha, c :: cs =>
    if c.isAlpha then (if prevAlpha then c.toLower else c.toUpper) :: titleMap true cs
    else c :: titleMap false cs

/-- `str.title()` (ASCII). -/
def pyTitle (s : String) : String := ⟨titleMap false s.data⟩

/-- Worker for `pySplitOn`: split a character list on every occurrence of
`sep`, keeping empty segments, as Python `str.split(sep)` does for a
one-character separator. -/
def splitChar (sep : Char) : List Char → List (List Char)
  | [] => [[]]
  | c :: cs =>
    match splitChar sep cs with
    | a :: as => if c = sep then [] :: a :: as else (c :: a) :: as
    | [] => if c = sep then [[], []] else [[c]]

/-- Python `str.split(sep)` for a one-character separator `sep`. -/
def pySplitOn (sep : Char) (s : String) : List String :=
  (splitChar sep s.data).map (fun l => ⟨l⟩)

/-- Python `str.replace(" ", "")`: delete every space character. -/
def pyRemoveSpaces (s : String) : String := ⟨s.data.filter (fun c => c != ' ')⟩

/-- Python `str.startswith(p)`. -/
def pyStartsWith (p s : String) : Bool := p.data.isPrefixOf s.data

/-- Strip Python whitespace from both ends, as `int(str)` does before
parsing. -/
def pyStrip (l : List Char) : List Char :=
  ((l.dropWhile isPyWs).reverse.dropWhile isPyWs).reverse

/-- Digit-sequence worker for `parseDigits`: after an initial digit,
Python `int` accepts further digits with single underscores strictly
between digits. -/
def digitsCore (acc : Nat) : List Char → Option Nat
  | [] => some acc
  | '_' :: c :: cs =>
    if c.isDigit then digitsCore (acc * 10 + (c.toNat - 48)) cs else none
  | ['_'] => none
  | c :: cs =>
    if c.isDigit then digitsCore (acc * 10 + (c.toNat - 48)) cs else none

/-- A nonempty digit sequence (underscores allowed between digits). -/
def parseDigits : List Char → Option Nat
  | [] => none
  | c :: cs => if c.isDigit then digitsCore (c.toNat - 48) cs else none

/-- Python `int(str)`: optional surrounding whitespace, optional single
sign, then a nonempty digit sequence with single underscores between
digits; `none` models `ValueError`. -/
def pyInt (s : String) : Option Int :=
  match pyStrip s.data with
  | '+' :: rest => (parseDigits rest).map (fun n => (n : Int))
  | '-' :: rest => (parseDigits rest).map (fun n => -(n : Int))
  | rest => (parseDigits rest).map (fun n => (n : Int))

/-- Decimal digits of a natural number. -/
def natToStr (n : Nat) : String := ⟨Nat.toDigits 10 n⟩

/-- Python `f"{n:04d}"`: pad the decimal rendering with leading zeros to a
total width of four characters (the sign, when present, counts toward the
width). -/
def pad4 (n : Int) : String :=
  let ds := natToStr n.natAbs
  if n < 0 then "-" ++ (⟨List.replicate (3 - ds.length) '0'⟩ : String) ++ ds
  else (⟨List.replicate (4 - ds.length) '0'⟩ : String) ++ ds

/-- Python `reference.split('.')[0]`: the part before the first dot. -/
def headBeforeDot (s : String) : String :=
  match pySplitOn '.' s with
  | h :: _ => h
  | [] => ""

/-! ### The data model -/

/-- One entry of `DATASTORE["docs_sections"]`: a title and a canonical
link. -/
structure DocEntry where
  title : String
  link : String
deriving DecidableEq

/-- The global `DATASTORE` loaded once from `datastore.json`: the
documentation-section table and the set of built-in function names. -/
structure Datastore where
  docs_sections : List DocEntry
  builtin_functions : List String
deriving DecidableEq

/-- Modelled from the spec: the contents of the static resource
`datastore.json` are not in the source tree; the spec describes it as a
list of documentation-section entries with title/link pairs plus a set of
built-in function names (`zip`, `map`, `filter`, `enumerate`, ...), and
language-reference entries such as the `while` statement. This sample
instance is used for concrete witnesses and counterexamples. -/
def sampleDatastore : Datastore :=
  { docs_sections :=
      [ ⟨"the while statement", "https://docs.python.org/3/reference/compound_stmts.html#the-while-statement"⟩
      , ⟨"the import statement", "https://docs.python.org/3/reference/simple_stmts.html#the-import-statement"⟩ ]
  , builtin_functions := ["zip", "map", "filter", "enumerate"] }

/-! ### The three resolvers -/

/-- The fixed easter-egg reply of `_python_enhancement_proposals`. -/
def zenText : String :=
  "[The Zen of Python](https://www.python.org/dev/peps/pep-0020)  \n\n    >>> import this  \n  \n"

/-- The canonical proposal URL built by `_python_enhancement_proposals`
from the parsed number. -/
def pepUrl (n : Int) : String :=
  "https://www.python.org/dev/peps/pep-" ++ pad4 n

/-- `PyDocsBot._python_enhancement_proposals`: lowercase the token; the
aliases of proposal 20 return the fixed easter egg; otherwise split on
`-` into exactly two parts (a failed unpack is caught and yields `""`),
parse the second as an integer (a `ValueError` yields `""`), zero-pad to
four digits, build the canonical URL and probe it. -/
def python_enhancement_proposals (probe : String → Bool) (reference0 : String) : String :=
  let reference := pyLower reference0
  if reference ∈ ["zen", "zenofpython", "pep-20"] then zenText
  else
    match pySplitOn '-' reference with
    | [_, pepStr] =>
      match pyInt pepStr with
      | some k =>
        let link := pepUrl k
        if probe link then "[" ++ pyUpper reference ++ "](" ++ link ++ ")  \n  \n" else ""
      | none => ""
    | _ => ""

/-- The markdown line `_language_reference_docs` emits for a matched
entry. -/
def refLine (e : DocEntry) : String :=
  "[" ++ pyTitle e.title ++ "](" ++ e.link ++ ")  \n  \n"

/-- `PyDocsBot._language_reference_docs`: for every entry of
`DATASTORE["docs_sections"]`, in order, compute the token-set ratio of
the entry's title against the lowercased token and keep the entry's link
line when the score is strictly above 85; join the kept lines. -/
def language_reference_docs (tsr : String → String → Nat) (ds : Datastore) (reference : String) : String :=
  let matched := ds.docs_sections.filterMap
    (fun e => if 85 < tsr e.title (pyLower reference) then some (refLine e) else none)
  if matched.isEmpty then "" else String.join matched

/-- The functions-page anchor URL built by `_library_reference_docs` for
a built-in name. -/
def functionsUrl (reference : String) : String :=
  "https://docs.python.org/3/library/functions.html#" ++ reference

/-- The markdown line `_library_reference_docs` emits for a link that
probed successfully. -/
def libLine (reference link : String) : String :=
  "[" ++ reference ++ "](" ++ link ++ ")  \n  \n"

/-- `PyDocsBot._library_reference_docs`: built-in names use the shared
functions-page anchor, other tokens the `<token>.html#<token>` path; the
chosen URL is probed, and on failure the fallback
`<part before first dot>.html#<token>` URL is probed; a link line is
returned only for a URL whose probe succeeds. -/
def library_reference_docs (probe : String → Bool) (ds : Datastore) (reference : String) : String :=
  let link :=
    if reference ∈ ds.builtin_functions then functionsUrl reference
    else "https://docs.python.org/3/library/" ++ reference ++ ".html#" ++ reference
  if probe link then libLine reference link
  else
    let link2 := "https://docs.python.org/3/library/" ++ headBeforeDot reference ++ ".html#" ++ reference
    if probe link2 then libLine reference link2 else ""

/-! ### The per-comment pipeline of `monitor_and_reply_to_comments` -/

/-- The per-token expression of the reply-building list comprehension:
library, then language (fuzzy), then proposal resolver output,
concatenated. -/
def per_reference_links (probe : String → Bool) (tsr : String → String → Nat)
    (ds : Datastore) (reference : String) : String :=
  library_reference_docs probe ds reference
    ++ language_reference_docs tsr ds reference
    ++ python_enhancement_proposals probe reference

/-- The lines of a comment body: `^`/`$` of a MULTILINE pattern bind at
these boundaries. -/
def linesOf (body : String) : List String := pySplitOn '\n' body

/-- `bool(search(r"^\!docs.+$", body, MULTILINE))`: some line starts with
`!docs` followed by at least one further character (`.` never matches a
newline). -/
def triggerMatch (body : String) : Bool :=
  (linesOf body).any (fun l => pyStartsWith "!docs" l && decide (5 < l.length))

/-- A match of `^\!docs\s(.+)$` lying entirely inside one line: the line
starts with `!docs`, its sixth character is whitespace, and at least one
character follows; the group is everything after that whitespace. -/
def lineArg (l : String) : Option String :=
  if pyStartsWith "!docs" l then
    match l.data.drop 5 with
    | c :: rest => if isPyWs c && !rest.isEmpty then some ⟨rest⟩ else none
    | [] => none
  else none

/-- `search(r"^\!docs\s(.+)$", body, MULTILINE)` over the line list:
scan line starts left to right; at a line the match is either entirely
inside the line (`lineArg`), or — when the line is exactly `!docs` — the
`\s` consumes the newline and the group is the following nonempty line. -/
def findArgs : List String → Option String
  | [] => none
  | l :: rest =>
    match lineArg l with
    | some g => some g
    | none =>
      if l = "!docs" then
        match rest with
        | next :: _ => if next != "" then some next else findArgs rest
        | [] => none
      else findArgs rest

/-- The fixed attribution footer appended to every reply. -/
def botFooter : String :=
  "  \nPython Documentation Bot - *[How To Use](https://github.com/trevormiller6/Py-Docs-Bot)*"

/-- The body of `monitor_and_reply_to_comments` for one comment: if the
trigger pattern matches, extract the argument group (`.group(1)` on a
failed search raises `AttributeError`, modelled as `Except.error ()`),
strip spaces, split on commas, resolve every token, keep the non-empty
results; reply (`some reply`) exactly when at least one result is
non-empty, otherwise only log (`none`). -/
def monitor_step (probe : String → Bool) (tsr : String → String → Nat)
    (ds : Datastore) (body : String) : Except Unit (Option String) :=
  if triggerMatch body then
    match findArgs (linesOf body) with
    | none => Except.error ()
    | some grp =>
      let needed_references := pySplitOn ',' (pyRemoveSpaces grp)
      let all_links := (needed_references.map (per_reference_links probe tsr ds)).filter
        (fun link => link != "")
      if all_links.isEmpty then Except.ok none
      else Except.ok (some (String.join all_links ++ botFooter))
  else Except.ok none

/-- State-passing rendering of one full resolution against the global
table: the three resolvers only read `DATASTORE` (no assignment to it
occurs anywhere in their bodies), so the table component comes back
unchanged. -/
def resolve_reference_st (probe : String → Bool) (tsr : String → String → Nat)
    (ds : Datastore) (reference : String) : String × Datastore :=
  (per_reference_links probe tsr ds reference, ds)

/-! ### Shared helper lemmas -/

/-- A `filterMap` whose function is an if-then-some/none is a `filter`
followed by a `map`. -/
theorem filterMap_ite_eq_map_filter {α : Type} (p : α → Prop) [DecidablePred p]
    (f : α → String) (l : List α) :
    l.filterMap (fun e => if p e then some (f e) else none)
      = (l.filter (fun e => decide (p e))).map f := by
  induction l with
  | nil => rfl
  | cons a t ih => by_cases h : p a <;> simp [h, ih]

/-- The redundant emptiness guard around a string join changes nothing. -/
theorem join_if_isEmpty (l : List String) :
    (if l.isEmpty then "" else String.join l) = String.join l := by
  cases l <;> rfl

/-! ### Theorems for the claims -/

/-- C1 counterexample: `zip` is in the built-in set, yet when the probe of
the functions-page URL fails the library resolver does not return the
functions-page link line (it returns the empty string), so the link is
not returned "the probe notwithstanding". -/
theorem library_builtin_probe_failure_cex :
    "zip" ∈ sampleDatastore.builtin_functions ∧
    library_reference_docs (fun _ => false) sampleDatastore "zip"
      ≠ libLine "zip" (functionsUrl "zip") := by
  exact ⟨by decide, by decide⟩

/-- C1 (amended): for a token in the built-in set the library resolver
returns the single functions-page anchor link line provided the probe of
that URL succeeds. -/
theorem library_builtin_link_of_probe (probe : String → Bool) (ds : Datastore)
    (reference : String)
    (h1 : reference ∈ ds.builtin_functions)
    (h2 : probe (functionsUrl reference) = true) :
    library_reference_docs probe ds reference = libLine reference (functionsUrl reference) := by
  simp only [library_reference_docs, if_pos h1, h2]
  exact if_pos trivial

/-- Witness for C1's amended theorem at the built-in `zip` with an
always-succeeding probe. -/
theorem library_builtin_link_of_probe_witness :
    "zip" ∈ sampleDatastore.builtin_functions ∧
    library_reference_docs (fun _ => true) sampleDatastore "zip"
      = "[zip](https://docs.python.org/3/library/functions.html#zip)  \n  \n" := by
  refine ⟨by decide, ?_⟩
  have h := library_builtin_link_of_probe (fun _ => true) sampleDatastore "zip" (by decide) rfl
  rw [h]; decide

/-- C2: a non-alias token whose lowercasing splits on the dash into
exactly two parts with an integer second part resolves through the
zero-padded canonical URL; the probe alone decides between the single
link line and the empty string. -/
theorem pep_resolver_two_parts_int (probe : String → Bool) (reference : String)
    (p1 p2 : String) (n : Int)
    (halias : pyLower reference ∉ (["zen", "zenofpython", "pep-20"] : List String))
    (hsplit : pySplitOn '-' (pyLower reference) = [p1, p2])
    (hint : pyInt p2 = some n) :
    python_enhancement_proposals probe reference =
      (if probe (pepUrl n) then
        "[" ++ pyUpper (pyLower reference) ++ "](" ++ pepUrl n ++ ")  \n  \n"
      else "") := by
  simp only [python_enhancement_proposals, if_neg halias, hsplit, hint]

/-- Witness for C2 at `pep-8`: the canonical URL carries `pep-0008`, a
succeeding probe yields the single link line, a failing probe the empty
string. -/
theorem pep_resolver_two_parts_int_witness :
    python_enhancement_proposals (fun _ => true) "pep-8"
      = "[PEP-8](https://www.python.org/dev/peps/pep-0008)  \n  \n" ∧
    python_enhancement_proposals (fun _ => false) "pep-8" = "" := by
  constructor
  · have h := pep_resolver_two_parts_int (fun _ => true) "pep-8" "pep" "8" 8
      (by decide) (by decide) (by decide)
    rw [h]; rfl
  · have h := pep_resolver_two_parts_int (fun _ => false) "pep-8" "pep" "8" 8
      (by decide) (by decide) (by decide)
    rw [h]; rfl

/-- C3: a token whose lowercasing is one of the easter-egg aliases makes
the proposal resolver return the fixed easter-egg text for every probe
function, so the result never depends on the network. -/
theorem pep_resolver_easter_egg (probe : String → Bool) (reference : String)
    (h : pyLower reference ∈ (["zen", "zenofpython", "pep-20"] : List String)) :
    python_enhancement_proposals probe reference = zenText := by
  simp only [python_enhancement_proposals, if_pos h]

/-- Witness for C3 at `ZenOfPython` with an always-failing probe. -/
theorem pep_resolver_easter_egg_witness :
    python_enhancement_proposals (fun _ => false) "ZenOfPython" = zenText :=
  pep_resolver_easter_egg (fun _ => false) "ZenOfPython" (by decide)

/-- C4: the fuzzy resolver's output is the join, in table order, of one
link line per entry scoring strictly above 85 against the lowercased
token, and the empty string when no entry qualifies. -/
theorem language_resolver_filter_join (tsr : String → String → Nat)
    (ds : Datastore) (reference : String) :
    language_reference_docs tsr ds reference
      = String.join ((ds.docs_sections.filter
          (fun e => decide (85 < tsr e.title (pyLower reference)))).map refLine)
    ∧ ((∀ e ∈ ds.docs_sections, tsr e.title (pyLower reference) ≤ 85) →
        language_reference_docs tsr ds reference = "") := by
  have hmain : language_reference_docs tsr ds reference
      = String.join ((ds.docs_sections.filter
          (fun e => decide (85 < tsr e.title (pyLower reference)))).map refLine) := by
    unfold language_reference_docs
    rw [join_if_isEmpty, filterMap_ite_eq_map_filter]
  refine ⟨hmain, fun h => ?_⟩
  rw [hmain]
  have hnil : ds.docs_sections.filter
      (fun e => decide (85 < tsr e.title (pyLower reference))) = [] := by
    rw [List.filter_eq_nil_iff]
    intro e he
    simpa using Nat.not_lt.2 (h e he)
  rw [hnil]
  rfl

/-- Witness for C4: with a similarity score that is constantly zero, no
entry qualifies and the fuzzy resolver returns the empty string. -/
theorem language_resolver_filter_join_witness :
    language_reference_docs (fun _ _ => 0) sampleDatastore "xyz" = "" :=
  (language_resolver_filter_join (fun _ _ => 0) sampleDatastore "xyz").2 (by decide)

/-- C5: the per-token result of the reply-building comprehension is the
library output, then the fuzzy language output, then the proposal
output, concatenated in that fixed order. -/
theorem per_reference_links_order (probe : String → Bool) (tsr : String → String → Nat)
    (ds : Datastore) (reference : String) :
    per_reference_links probe tsr ds reference =
      library_reference_docs probe ds reference
        ++ language_reference_docs tsr ds reference
        ++ python_enhancement_proposals probe reference := rfl

/-- C6: on a matched message with extracted argument group `grp`, the
comment step replies exactly when some per-token result is non-empty,
and the single reply is the join of the non-empty per-token results
followed by the fixed footer; otherwise no reply is produced. -/
theorem monitor_step_reply_iff (probe : String → Bool) (tsr : String → String → Nat)
    (ds : Datastore) (body grp : String)
    (h1 : triggerMatch body = true)
    (h2 : findArgs (linesOf body) = some grp) :
    monitor_step probe tsr ds body =
      (if ((pySplitOn ',' (pyRemoveSpaces grp)).map (per_reference_links probe tsr ds)).filter
            (fun link => link != "") |>.isEmpty
       then Except.ok none
       else Except.ok (some (String.join
          (((pySplitOn ',' (pyRemoveSpaces grp)).map (per_reference_links probe tsr ds)).filter
            (fun link => link != "")) ++ botFooter))) := by
  simp only [monitor_step, h1, h2]
  exact if_pos trivial

/-- Witness for C6: the message `!docs zip` with an always-succeeding
probe yields exactly one reply, the zip link line plus the footer. -/
theorem monitor_step_reply_iff_witness :
    triggerMatch "!docs zip" = true ∧
    findArgs (linesOf "!docs zip") = some "zip" ∧
    monitor_step (fun _ => true) (fun _ _ => 0) sampleDatastore "!docs zip" =
      Except.ok (some "[zip](https://docs.python.org/3/library/functions.html#zip)  \n  \n  \nPython Documentation Bot - *[How To Use](https://github.com/trevormiller6/Py-Docs-Bot)*") := by
  refine ⟨rfl, rfl, ?_⟩
  have h := monitor_step_reply_iff (fun _ => true) (fun _ _ => 0) sampleDatastore
    "!docs zip" "zip" rfl rfl
  rw [h]; rfl

/-- C7 counterexample: the token `zen` does not split on the dash into
two parts (so it is malformed in the claim's sense), yet the proposal
resolver returns the non-empty easter-egg text, not the empty string. -/
theorem pep_resolver_malformed_cex :
    pySplitOn '-' (pyLower "zen") = ["zen"] ∧
    python_enhancement_proposals (fun _ => false) "zen" ≠ "" := by
  exact ⟨by decide, by decide⟩

/-- C7 (amended): a malformed proposal token that is not an easter-egg
alias — its lowercasing does not split on the dash into exactly two
parts, or the second part does not parse as an integer — yields the
empty string (the resolver is a total function: the failed unpack and
the failed parse are caught in the source). -/
theorem pep_resolver_malformed_empty (probe : String → Bool) (reference : String)
    (halias : pyLower reference ∉ (["zen", "zenofpython", "pep-20"] : List String))
    (hbad : ∀ p1 p2, pySplitOn '-' (pyLower reference) = [p1, p2] → pyInt p2 = none) :
    python_enhancement_proposals probe reference = "" := by
  rcases hsp : pySplitOn '-' (pyLower reference) with _ | ⟨a, _ | ⟨b, _ | ⟨c, t⟩⟩⟩
  · simp only [python_enhancement_proposals, if_neg halias, hsp]
  · simp only [python_enhancement_proposals, if_neg halias, hsp]
  · simp only [python_enhancement_proposals, if_neg halias, hsp, hbad a b hsp]
  · simp only [python_enhancement_proposals, if_neg halias, hsp]

/-- Witness for C7's amended theorem at the claim's own examples
`pep-abc` (non-integer second part) and `pep` (no separator). -/
theorem pep_resolver_malformed_empty_witness :
    python_enhancement_proposals (fun _ => true) "pep-abc" = "" ∧
    python_enhancement_proposals (fun _ => true) "pep" = "" := by
  constructor
  · refine pep_resolver_malformed_empty (fun _ => true) "pep-abc" (by decide) ?_
    intro p1 p2 h
    have h' : (["pep", "abc"] : List String) = [p1, p2] := h
    injection h' with e1 e2
    injection e2 with e3 e4
    rw [← e3]
    decide
  · refine pep_resolver_malformed_empty (fun _ => true) "pep" (by decide) ?_
    intro p1 p2 h
    have h' : (["pep"] : List String) = [p1, p2] := h
    simp at h'

/-- C8: resolution is a pure read of the reference table: the
state-passing rendering returns the table unchanged, and a second
resolution against the returned table produces the same output. -/
theorem resolve_reference_idempotent (probe : String → Bool) (tsr : String → String → Nat)
    (ds : Datastore) (reference : String) :
    (resolve_reference_st probe tsr ds reference).2 = ds ∧
    (resolve_reference_st probe tsr
        (resolve_reference_st probe tsr ds reference).2 reference).1
      = (resolve_reference_st probe tsr ds reference).1 :=
  ⟨rfl, rfl⟩

/-- C9 counterexample: the empty token is not in the built-in set, yet
when the probe of the URL built from the empty token succeeds the
library resolver contributes a non-empty link line — the contribution is
not empty "regardless of network responses". -/
theorem empty_token_library_cex :
    ("" ∉ sampleDatastore.builtin_functions) ∧
    library_reference_docs (fun _ => true) sampleDatastore "" ≠ "" := by
  exact ⟨by decide, by decide⟩

/-- C9 (amended): the proposal resolver maps the empty token to the
empty string unconditionally; the fuzzy resolver does so whenever no
entry scores above 85 against it; the library resolver does so provided
the probe of the URL built from the empty token fails (both its URLs
coincide for the empty token). -/
theorem empty_token_resolvers (probe : String → Bool) (tsr : String → String → Nat)
    (ds : Datastore)
    (hb : "" ∉ ds.builtin_functions)
    (hp : probe "https://docs.python.org/3/library/.html#" = false)
    (hfz : ∀ e ∈ ds.docs_sections, tsr e.title "" ≤ 85) :
    python_enhancement_proposals probe "" = "" ∧
    language_reference_docs tsr ds "" = "" ∧
    library_reference_docs probe ds "" = "" := by
  refine ⟨rfl, ?_, ?_⟩
  · unfold language_reference_docs
    rw [join_if_isEmpty, filterMap_ite_eq_map_filter]
    have hnil : ds.docs_sections.filter
        (fun e => decide (85 < tsr e.title (pyLower ""))) = [] := by
      rw [List.filter_eq_nil_iff]
      intro e he
      simpa using Nat.not_lt.2 (hfz e he)
    rw [hnil]
    rfl
  · have e1 : ("https://docs.python.org/3/library/" ++ "" ++ ".html#" ++ "" : String)
        = "https://docs.python.org/3/library/.html#" := by decide
    have e2 : ("https://docs.python.org/3/library/" ++ headBeforeDot "" ++ ".html#" ++ "" : String)
        = "https://docs.python.org/3/library/.html#" := by decide
    simp [library_reference_docs, hb, e1, e2, hp]

/-- Witness for C9's amended theorem with an always-failing probe and a
constantly zero similarity score on the sample table. -/
theorem empty_token_resolvers_witness :
    python_enhancement_proposals (fun _ => false) "" = "" ∧
    language_reference_docs (fun _ _ => 0) sampleDatastore "" = "" ∧
    library_reference_docs (fun _ => false) sampleDatastore "" = "" :=
  empty_token_resolvers (fun _ => false) (fun _ _ => 0) sampleDatastore
    (by decide) rfl (by decide)

/-- C10: on the body `!docsx` the trigger pattern matches but the
argument pattern finds no match, so the comment step raises (the
`AttributeError` of `.group(1)` on `None`) instead of replying or
resolving anything. -/
theorem trigger_without_args_raises (probe : String → Bool) (tsr : String → String → Nat)
    (ds : Datastore) :
    triggerMatch "!docsx" = true ∧
    findArgs (linesOf "!docsx") = none ∧
    monitor_step probe tsr ds "!docsx" = Except.error () :=
  ⟨rfl, rfl, rfl⟩
